import Mathlib

/-!
# Verification of the always-online-torrent-trackers UDP tracker checker

Shallow embedding of the repository's core:

* `src/candidates.rs` — `TransportType`, `TrackerCandidate` with
  `to_string` / `from_string` (canonical form `transport://host:port[suffix]`);
* `src/tracker_client.rs` — the BEP-15 UDP client `UdpTrackerClient` with
  `connect` / `announce`, modelled as pure functions over an explicit
  environment describing the socket and wire parser behaviour;
* `src/tracker_check.rs` — `CheckError`, the error-conversion instances and
  the per-candidate verdict classifier at the tail of `check_udp_candidate`.

Rust strings are modelled as `List Char`; the relevant characters are ASCII so
byte indices and character indices coincide on every path the code takes.
Machine integers are `Nat` with explicit `% 2^32` where the code casts to
`u32`.
-/

deriving instance DecidableEq for Except

namespace TrackerRepo

/-! ## Decimal digits: Rust `u16` Display and `str::parse::<u16>` -/

/-- The decimal digit character for `d < 10` (`d ≥ 9` clamps, never reached). -/
def digitChar : Nat → Char
  | 0 => '0' | 1 => '1' | 2 => '2' | 3 => '3' | 4 => '4'
  | 5 => '5' | 6 => '6' | 7 => '7' | 8 => '8' | _ => '9'

/-- Numeric value of a decimal digit character. -/
def digitVal (c : Char) : Nat := c.toNat - 48

/-- Is `c` an ASCII decimal digit (Rust `char::is_ascii_digit`)? -/
def isDigitCh (c : Char) : Bool := 48 ≤ c.toNat && c.toNat ≤ 57

/-- Fuel-indexed decimal printer; `natToChars` supplies enough fuel. -/
def natToCharsAux : Nat → Nat → List Char
  | 0, _ => []
  | fuel + 1, n =>
    if n < 10 then [digitChar n]
    else natToCharsAux fuel (n / 10) ++ [digitChar (n % 10)]

/-- The decimal representation Rust's `Display for u16` produces: most
significant digit first, no sign, no leading zeros, `"0"` for zero. -/
def natToChars (n : Nat) : List Char := natToCharsAux (n + 1) n

/-- Accumulating decimal value of a digit string. -/
def valDigits (s : List Char) : Nat :=
  s.foldl (fun a c => a * 10 + digitVal c) 0

/-- Rust `str::parse::<u16>`: an optional leading `'+'`, then one or more
ASCII digits; any other character or a value past `u16::MAX` is an error. -/
def parseU16 (s : List Char) : Option Nat :=
  let t := match s with
    | '+' :: r => r
    | _ => s
  if t = [] then none
  else if t.all isDigitCh then
    if valDigits t < 65536 then some (valDigits t) else none
  else none

/-! ## Rust `str::split` and `str::find` on `List Char` -/

/-- Rust `str::split(sep)`: splits at every occurrence of `sep`, keeping empty
pieces, and yields `[s]` when `sep` does not occur (never an empty list). -/
def splitCh (sep : Char) : List Char → List (List Char)
  | [] => [[]]
  | x :: xs =>
    let r := splitCh sep xs
    if x = sep then [] :: r
    else (x :: r.headD []) :: r.tail

/-- Rust `str::find(c)`: index of the first occurrence of `c`. -/
def findCh (c : Char) : List Char → Option Nat
  | [] => none
  | x :: xs => if x = c then some 0 else (findCh c xs).map (· + 1)

/-! ## `src/candidates.rs`: the candidate model -/

inductive TransportType where
  | UDP
  | HTTP
  | HTTPS
deriving DecidableEq, Repr

/-- `TransportType::to_string` (`src/candidates.rs:14`). -/
def TransportType.to_string : TransportType → List Char
  | .UDP => ['u', 'd', 'p']
  | .HTTP => ['h', 't', 't', 'p']
  | .HTTPS => ['h', 't', 't', 'p', 's']

/-- `TransportType::from_string` (`src/candidates.rs:22`). -/
def TransportType.from_string (s : List Char) : Except String TransportType :=
  if s = ['u', 'd', 'p'] then .ok .UDP
  else if s = ['h', 't', 't', 'p'] then .ok .HTTP
  else if s = ['h', 't', 't', 'p', 's'] then .ok .HTTPS
  else .error "Illegal protocol"

/-- `TrackerCandidate` (`src/candidates.rs:33`); the port is a `u16`, carried
as a `Nat` (theorems add `< 65536` where it matters). -/
structure TrackerCandidate where
  host : List Char
  port : Nat
  transport_type : TransportType
  suffix : Option (List Char)
deriving DecidableEq, Repr

/-- `TrackerCandidate::to_string` (`src/candidates.rs:53`):
`format!("{}://{}:{}{}", transport, host, port, suffix.unwrap_or(""))`. -/
def TrackerCandidate.to_string (c : TrackerCandidate) : List Char :=
  c.transport_type.to_string ++ [':', '/', '/'] ++ c.host
    ++ [':'] ++ natToChars c.port ++ c.suffix.getD []

/-- `TrackerCandidate::from_string` (`src/candidates.rs:59`). The source
checks `parts.len() == 3` and then indexes `parts[0..2]`; the match on a
three-element list is the same test. `parts[1].split_at(2)` after the
`starts_with("//")` check is the `hostcs` of the pattern. -/
def TrackerCandidate.from_string (s : List Char) :
    Except String TrackerCandidate :=
  match splitCh ':' s with
  | [p0, p1, p2] =>
    match TransportType.from_string p0 with
    | .error e => .error e
    | .ok transport_type =>
      match p1 with
      | '/' :: '/' :: hostcs =>
        match findCh '/' p2 with
        | some i =>
          match parseU16 (p2.take i) with
          | none => .error "Expected port to be a numeric value"
          | some port =>
            .ok ⟨hostcs, port, transport_type, some (p2.drop i)⟩
        | none =>
          match parseU16 p2 with
          | none => .error "Expected port to be a numeric value"
          | some port => .ok ⟨hostcs, port, transport_type, none⟩
      | _ => .error "Invalid format. Missing :// after proto"
  | _ => .error "Invalid format. Expecting two colons"

/-- One of the malformations `from_string` rejects, phrased on the code's own
checks: wrong number of `':'`-separated fields (the catch-all arm), an unknown
transport, a second field not starting with `"//"`, or a port that does not
parse as a `u16`. -/
def malformedInput (s : List Char) : Bool :=
  match splitCh ':' s with
  | [p0, p1, p2] =>
    !(TransportType.from_string p0).isOk
    || (match p1 with
        | '/' :: '/' :: _ => false
        | _ => true)
    || (match findCh '/' p2 with
        | some i => (parseU16 (p2.take i)).isNone
        | none => (parseU16 p2).isNone)
  | _ => true

/-! ## `src/tracker_client.rs`: the BEP-15 protocol session

The socket and the `bip_utracker` wire codec are external to the repository;
they enter the embedding as an explicit per-exchange environment: what
`send_to` reports, and what `timeout(recv)` yields together with the parse of
the received bytes.  One fact of the platform is baked in: `recv` on a UDP
socket writes at most the buffer's size into it — a datagram larger than the
buffer is truncated and the excess discarded, so the reported byte count is
`min (datagram size) 1024`. -/

/-- A few representative `std::io::ErrorKind` values; the code only ever
distinguishes `TimedOut` from everything else. -/
inductive IoErrorKind where
  | TimedOut
  | ConnectionRefused
  | NotFound
  | Other
deriving DecidableEq, Repr

/-- `UdpTrackerClientError` (`src/tracker_client.rs:143`). -/
inductive UdpTrackerClientError where
  | GeneralError (msg : String)
  | IoError (kind : IoErrorKind)
  | ApplicationError (msg : String)
deriving DecidableEq, Repr

/-- `impl From<io::Error> for UdpTrackerClientError` (`src/tracker_client.rs:149`). -/
def UdpTrackerClientError.fromIo (k : IoErrorKind) : UdpTrackerClientError :=
  .IoError k

/-- `impl From<Elapsed> for UdpTrackerClientError` (`src/tracker_client.rs:155`):
a `tokio::time` timeout becomes `IoError` of kind `TimedOut`. -/
def UdpTrackerClientError.fromElapsed : UdpTrackerClientError :=
  .IoError .TimedOut

/-- A compact peer from an ANNOUNCE response; only the port is inspected by
this repository. -/
structure Peer where
  port : Nat
deriving DecidableEq, Repr

/-- `response::ResponseType` of the `bip_utracker` crate, as matched by the
client. -/
inductive ResponseType where
  | Connect (conn_id : Nat)
  | Announce (interval leechers seeders : Int) (peers : List Peer)
  | Scrape
  | ErrorResp
deriving DecidableEq, Repr

/-- The `nom` outcome of `TrackerResponse::from_bytes` on the received bytes. -/
inductive ParseOutcome where
  | Done (r : ResponseType)
  | Incomplete
  | ParseError
deriving DecidableEq, Repr

/-- What `socket.send_to(&buffer, addr)` returned. -/
inductive SendOutcome where
  | sent (n : Nat)
  | ioErr (k : IoErrorKind)
deriving DecidableEq, Repr

/-- What `time::timeout(self.timeout, self.socket.recv(&mut buffer))` yielded:
the timeout elapsed, `recv` failed, or a datagram of `size` bytes arrived
whose received prefix (at most 1024 bytes of it) parses to `parsed`. -/
inductive RecvOutcome where
  | timedOut
  | ioErr (k : IoErrorKind)
  | datagram (size : Nat) (parsed : ParseOutcome)
deriving DecidableEq, Repr

/-- The environment of one request/response exchange: the serialized request
frame `write_bytes` produced (its length is at most 1024, or the source's
`.expect` would panic), and the socket's behaviour. -/
structure ExchangeEnv where
  frame : List Nat
  send : SendOutcome
  recv : RecvOutcome
deriving DecidableEq, Repr

/-- The 1024-byte send buffer: `let mut buffer = [0u8; 1024]` then
`write_bytes(&mut buffer[..])` — the frame followed by the untouched zero
padding. -/
def sendBuffer (frame : List Nat) : List Nat :=
  frame ++ List.replicate (1024 - frame.length) 0

/-- Mutable client state: `conn_id: u64`, `0` meaning "not connected"
(`src/tracker_client.rs:24`, initialised at line 40). -/
structure UdpTrackerClient where
  conn_id : Nat
deriving DecidableEq, Repr

/-- `UdpTrackerClient::new` (`src/tracker_client.rs:36`). -/
def UdpTrackerClient.new : UdpTrackerClient := ⟨0⟩

/-- `AnnounceResponse` (`src/tracker_client.rs:28`). -/
structure AnnounceResponse where
  interval : Int
  leechers : Int
  seeders : Int
  peers : List Peer
deriving DecidableEq, Repr

/-- Result of an embedded call: the returned value, the state after the call,
and the datagrams handed to the socket during it. -/
structure ConnectCall where
  result : Except UdpTrackerClientError Unit
  state : UdpTrackerClient
  sentDatagrams : List (List Nat)
deriving Repr

/-- `UdpTrackerClient::connect` (`src/tracker_client.rs:45`).  `read` is what
`recv` reports: `min size 1024` by UDP truncation, so the `read > 1024` guard
at line 61 can never fire. -/
def UdpTrackerClient.connect (st : UdpTrackerClient) (env : ExchangeEnv) :
    ConnectCall :=
  let buffer := sendBuffer env.frame
  match env.send with
  | .ioErr k => ⟨.error (UdpTrackerClientError.fromIo k), st, [buffer]⟩
  | .sent n =>
    if 1024 ≠ n then
      ⟨.error (.GeneralError "Failed to send the entire CONNECT request"),
        st, [buffer]⟩
    else
      match env.recv with
      | .timedOut => ⟨.error UdpTrackerClientError.fromElapsed, st, [buffer]⟩
      | .ioErr k => ⟨.error (UdpTrackerClientError.fromIo k), st, [buffer]⟩
      | .datagram size parsed =>
        let read := min size 1024
        if read > 1024 then
          ⟨.error (.GeneralError "Failed to read the entire CONNECT response. Buffer too small?"),
            st, [buffer]⟩
        else
          match parsed with
          | .Incomplete =>
            ⟨.error (.ApplicationError "Incomplete CONNECT response"), st, [buffer]⟩
          | .ParseError =>
            ⟨.error (.ApplicationError "Unknown CONNECT response error"), st, [buffer]⟩
          | .Done rt =>
            match rt with
            | .Connect conn_id => ⟨.ok (), ⟨conn_id⟩, [buffer]⟩
            | .Announce _ _ _ _ =>
              ⟨.error (.ApplicationError "Expected CONNECT response, got ANNOUNCE response"),
                st, [buffer]⟩
            | .Scrape =>
              ⟨.error (.ApplicationError "Expected CONNECT response, got SCRAPE response"),
                st, [buffer]⟩
            | .ErrorResp =>
              ⟨.error (.ApplicationError "Expected CONNECT response, got ERROR response"),
                st, [buffer]⟩

/-- Result of an embedded `announce` call (`&self`: no state change). -/
structure AnnounceCall where
  result : Except UdpTrackerClientError AnnounceResponse
  sentDatagrams : List (List Nat)
deriving Repr

/-- `UdpTrackerClient::announce` (`src/tracker_client.rs:83`).  Note the
receive-size guard here is `read >= 1024` (line 103), unlike `connect`. -/
def UdpTrackerClient.announce (st : UdpTrackerClient) (env : ExchangeEnv) :
    AnnounceCall :=
  if st.conn_id = 0 then
    ⟨.error (.ApplicationError "You have to run connect first!"), []⟩
  else
    let buffer := sendBuffer env.frame
    match env.send with
    | .ioErr k => ⟨.error (UdpTrackerClientError.fromIo k), [buffer]⟩
    | .sent n =>
      if 1024 ≠ n then
        ⟨.error (.GeneralError "Failed to send the entire ANNOUNCE request"), [buffer]⟩
      else
        match env.recv with
        | .timedOut => ⟨.error UdpTrackerClientError.fromElapsed, [buffer]⟩
        | .ioErr k => ⟨.error (UdpTrackerClientError.fromIo k), [buffer]⟩
        | .datagram size parsed =>
          let read := min size 1024
          if read ≥ 1024 then
            ⟨.error (.GeneralError "Failed to read the entire ANNOUNCE response. Buffer too small?"),
              [buffer]⟩
          else
            match parsed with
            | .Incomplete =>
              ⟨.error (.ApplicationError "Incomplete ANNOUNCE response"), [buffer]⟩
            | .ParseError =>
              ⟨.error (.ApplicationError "Unknown ANNOUNCE response error"), [buffer]⟩
            | .Done rt =>
              match rt with
              | .Announce interval leechers seeders peers =>
                ⟨.ok ⟨interval, leechers, seeders, peers⟩, [buffer]⟩
              | .Connect _ =>
                ⟨.error (.ApplicationError "Expected ANNOUNCE response, got CONNECT response"),
                  [buffer]⟩
              | .Scrape =>
                ⟨.error (.ApplicationError "Expected ANNOUNCE response, got SCRAPE response"),
                  [buffer]⟩
              | .ErrorResp =>
                ⟨.error (.ApplicationError "Expected ANNOUNCE response, got ERROR response"),
                  [buffer]⟩

/-! ## `src/tracker_check.rs`: error taxonomy and verdict classifier -/

/-- `CheckError` (`src/tracker_check.rs:23`). -/
inductive CheckError where
  | DnsResolutionFailed
  | OperationalError
  | PartialTimeout
  | Timeout
deriving DecidableEq, Repr

/-- `impl From<io::Error> for CheckError` (`src/tracker_check.rs:30`). -/
def CheckError.fromIo (k : IoErrorKind) : CheckError :=
  match k with
  | .TimedOut => .Timeout
  | _ => .OperationalError

/-- `impl From<UdpTrackerClientError> for CheckError` (`src/tracker_check.rs:42`). -/
def CheckError.fromClient (e : UdpTrackerClientError) : CheckError :=
  match e with
  | .IoError k => CheckError.fromIo k
  | .ApplicationError _ => .OperationalError
  | .GeneralError _ => .OperationalError

/-- `ok` of `Result<T, E>`, as `filter_map(|r| r.as_ref().ok())` uses it. -/
def okPart {ε α : Type} : Except ε α → Option α
  | .ok a => some a
  | .error _ => none

/-- `err` of `Result<T, E>`, as `filter_map(|r| r.clone().err())` uses it. -/
def errPart {ε α : Type} : Except ε α → Option ε
  | .ok _ => none
  | .error e => some e

/-- The verdict classifier at the tail of `check_udp_candidate`
(`src/tracker_check.rs:129`–`165`).  One per-address outcome is `ok` of the
measured latency in whole milliseconds (the `Duration` whose
`as_millis() as u32` line 137 takes), or `err` of a `CheckError`.
`iter().filter(p).count()` is `countP`; the `u32` casts of line 137/138 are
the `% 2^32`; the division is Rust `u32` integer division. -/
def classify (responses : List (Except CheckError Nat)) : Except CheckError Nat :=
  let ok_count := responses.countP (fun r => r.isOk)
  if ok_count = responses.length then
    let rtt_ms :=
      ((responses.filterMap okPart).foldl
        (fun a ms => (a + ms % 4294967296) % 4294967296) 0)
      / (responses.length % 4294967296)
    .ok rtt_ms
  else
    let op_errors :=
      (responses.filterMap errPart).countP
        (fun e => decide (e = CheckError.OperationalError))
    if 0 < op_errors then .error .OperationalError
    else
      let timeouts :=
        (responses.filterMap errPart).countP
          (fun e => decide (e = CheckError.Timeout))
      if timeouts < responses.length then .error .PartialTimeout
      else .error .Timeout

/-! ## Lemmas about the decimal digit helpers -/

theorem digitVal_digitChar {d : Nat} (h : d < 10) :
    digitVal (digitChar d) = d := by
  interval_cases d <;> rfl

theorem isDigitCh_digitChar {d : Nat} (h : d < 10) :
    isDigitCh (digitChar d) = true := by
  interval_cases d <;> rfl

theorem valDigits_append_singleton (l : List Char) (c : Char) :
    valDigits (l ++ [c]) = valDigits l * 10 + digitVal c := by
  simp [valDigits, List.foldl_append]

theorem natToCharsAux_all_digits :
    ∀ fuel n, n < fuel → (natToCharsAux fuel n).all isDigitCh = true := by
  intro fuel
  induction fuel with
  | zero => intro n h; exact absurd h (Nat.not_lt_zero n)
  | succ f ih =>
    intro n h
    unfold natToCharsAux
    by_cases h10 : n < 10
    · simp [h10, isDigitCh_digitChar h10]
    · have hdiv : n / 10 < n := Nat.div_lt_self (by omega) (by omega)
      have hf : n / 10 < f := by omega
      simp only [h10, if_false, List.all_append, Bool.and_eq_true]
      exact ⟨ih (n / 10) hf, by simp [isDigitCh_digitChar (Nat.mod_lt n (by omega))]⟩

theorem valDigits_natToCharsAux :
    ∀ fuel n, n < fuel → valDigits (natToCharsAux fuel n) = n := by
  intro fuel
  induction fuel with
  | zero => intro n h; exact absurd h (Nat.not_lt_zero n)
  | succ f ih =>
    intro n h
    unfold natToCharsAux
    by_cases h10 : n < 10
    · simp [h10, valDigits, digitVal_digitChar h10]
    · have hdiv : n / 10 < n := Nat.div_lt_self (by omega) (by omega)
      have hf : n / 10 < f := by omega
      simp only [h10, if_false, valDigits_append_singleton, ih (n / 10) hf,
        digitVal_digitChar (Nat.mod_lt n (by omega))]
      omega

theorem natToCharsAux_ne_nil :
    ∀ fuel n, n < fuel → natToCharsAux fuel n ≠ [] := by
  intro fuel n h
  cases fuel with
  | zero => exact absurd h (Nat.not_lt_zero n)
  | succ f =>
    unfold natToCharsAux
    by_cases h10 : n < 10 <;> simp [h10]

theorem natToChars_all_digits (n : Nat) :
    (natToChars n).all isDigitCh = true :=
  natToCharsAux_all_digits (n + 1) n (Nat.lt_succ_self n)

theorem valDigits_natToChars (n : Nat) : valDigits (natToChars n) = n :=
  valDigits_natToCharsAux (n + 1) n (Nat.lt_succ_self n)

theorem natToChars_ne_nil (n : Nat) : natToChars n ≠ [] :=
  natToCharsAux_ne_nil (n + 1) n (Nat.lt_succ_self n)

theorem mem_natToChars_isDigitCh {n : Nat} {c : Char}
    (hc : c ∈ natToChars n) : isDigitCh c = true :=
  List.all_eq_true.mp (natToChars_all_digits n) c hc

theorem colon_not_mem_natToChars (n : Nat) : ':' ∉ natToChars n := by
  intro hmem
  have := mem_natToChars_isDigitCh hmem
  simp [isDigitCh] at this

theorem slash_not_mem_natToChars (n : Nat) : '/' ∉ natToChars n := by
  intro hmem
  have := mem_natToChars_isDigitCh hmem
  simp [isDigitCh] at this

theorem parseU16_natToChars {p : Nat} (hp : p < 65536) :
    parseU16 (natToChars p) = some p := by
  unfold parseU16
  have hall := natToChars_all_digits p
  have hne := natToChars_ne_nil p
  split
  case _ r heq =>
    exfalso
    have : isDigitCh '+' = true :=
      List.all_eq_true.mp (heq ▸ hall) '+' (by simp)
    simp [isDigitCh] at this
  case _ =>
    rw [if_neg hne, if_pos hall, valDigits_natToChars, if_pos hp]

/-! ## Lemmas about `splitCh` and `findCh` -/

theorem not_mem_all_ne {c : Char} {l : List Char} (h : c ∉ l) :
    ∀ a ∈ l, a ≠ c :=
  fun _ ha e => h (e ▸ ha)

theorem splitCh_of_not_mem {sep : Char} {s : List Char}
    (h : ∀ a ∈ s, a ≠ sep) : splitCh sep s = [s] := by
  induction s with
  | nil => rfl
  | cons x xs ih =>
    have hx : x ≠ sep := h x (List.mem_cons_self x xs)
    have ih' := ih (fun a ha => h a (List.mem_cons_of_mem x ha))
    simp [splitCh, hx, ih']

theorem splitCh_append {sep : Char} {pre rest : List Char}
    (h : ∀ a ∈ pre, a ≠ sep) :
    splitCh sep (pre ++ sep :: rest) = pre :: splitCh sep rest := by
  induction pre with
  | nil => simp [splitCh]
  | cons x xs ih =>
    have hx : x ≠ sep := h x (List.mem_cons_self x xs)
    have ih' := ih (fun a ha => h a (List.mem_cons_of_mem x ha))
    simp [splitCh, hx, ih']

theorem findCh_of_not_mem {c : Char} {s : List Char}
    (h : ∀ a ∈ s, a ≠ c) : findCh c s = none := by
  induction s with
  | nil => rfl
  | cons x xs ih =>
    have hx : x ≠ c := h x (List.mem_cons_self x xs)
    have ih' := ih (fun a ha => h a (List.mem_cons_of_mem x ha))
    simp [findCh, hx, ih']

theorem findCh_append {c : Char} {pre rest : List Char}
    (h : ∀ a ∈ pre, a ≠ c) :
    findCh c (pre ++ c :: rest) = some pre.length := by
  induction pre with
  | nil => simp [findCh]
  | cons x xs ih =>
    have hx : x ≠ c := h x (List.mem_cons_self x xs)
    have ih' := ih (fun a ha => h a (List.mem_cons_of_mem x ha))
    simp [findCh, hx, ih']

/-! ## Lemmas about the transport strings -/

theorem TransportType.from_string_to_string (t : TransportType) :
    TransportType.from_string t.to_string = .ok t := by
  cases t <;> rfl

theorem colon_not_mem_transport (t : TransportType) :
    ':' ∉ t.to_string := by
  cases t <;> decide

/-! ## The canonical split of a serialized candidate -/

theorem splitCh_to_string (c : TrackerCandidate)
    (hhost : ':' ∉ c.host)
    (hsuf : ':' ∉ c.suffix.getD []) :
    splitCh ':' c.to_string
      = [c.transport_type.to_string, '/' :: '/' :: c.host,
          natToChars c.port ++ c.suffix.getD []] := by
  have e1 : c.to_string
      = c.transport_type.to_string
        ++ ':' :: (('/' :: '/' :: c.host)
        ++ ':' :: (natToChars c.port ++ c.suffix.getD [])) := by
    simp [TrackerCandidate.to_string]
  rw [e1,
    splitCh_append (not_mem_all_ne (colon_not_mem_transport c.transport_type)),
    splitCh_append, splitCh_of_not_mem]
  · exact not_mem_all_ne (by
      simp only [List.mem_append, not_or]
      exact ⟨colon_not_mem_natToChars c.port, hsuf⟩)
  · intro a ha
    simp only [List.mem_cons] at ha
    rcases ha with rfl | rfl | ha
    · decide
    · decide
    · exact not_mem_all_ne hhost a ha

/-- The serialize/parse round trip on the domain where it actually holds:
hosts without `':'`, and a suffix that is absent or starts with `'/'` and
contains no `':'`. -/
theorem from_string_to_string_aux (c : TrackerCandidate)
    (hhost : ':' ∉ c.host) (hport : c.port < 65536)
    (hsuf : c.suffix = none ∨
      ∃ r, c.suffix = some ('/' :: r) ∧ ':' ∉ ('/' :: r)) :
    TrackerCandidate.from_string c.to_string = .ok c := by
  have hsufc : ':' ∉ c.suffix.getD [] := by
    rcases hsuf with h | ⟨r, hr, hc⟩
    · simp [h]
    · simpa [hr] using hc
  have hsplit := splitCh_to_string c hhost hsufc
  unfold TrackerCandidate.from_string
  rw [hsplit]
  simp only [TransportType.from_string_to_string c.transport_type]
  rcases hsuf with h | ⟨r, hr, _⟩
  · rw [h]
    simp only [Option.getD_none, List.append_nil]
    rw [findCh_of_not_mem (not_mem_all_ne (slash_not_mem_natToChars c.port)),
      parseU16_natToChars hport]
    obtain ⟨host, port, tt, suffix⟩ := c
    simp_all
  · rw [hr]
    simp only [Option.getD_some]
    rw [findCh_append (not_mem_all_ne (slash_not_mem_natToChars c.port))]
    simp only [List.take_left, List.drop_left, parseU16_natToChars hport]
    obtain ⟨host, port, tt, suffix⟩ := c
    simp_all

/-- A string `from_string` accepts exhibits none of the malformations. -/
theorem from_string_ok_not_malformed {s : List Char} {c : TrackerCandidate}
    (h : TrackerCandidate.from_string s = .ok c) : malformedInput s = false := by
  unfold TrackerCandidate.from_string at h
  unfold malformedInput
  split at h
  case _ p0 p1 p2 heq =>
    split at h
    case _ e heq2 => exact absurd h (by simp)
    case _ tt heq2 =>
      rw [heq2]
      split at h
      case _ hostcs =>
        split at h
        case _ i heq4 =>
          split at h
          case _ heq5 => exact absurd h (by simp)
          case _ port heq5 => simp [heq4, heq5, Except.isOk, Except.toBool]
        case _ heq4 =>
          split at h
          case _ heq5 => exact absurd h (by simp)
          case _ port heq5 => simp [heq4, heq5, Except.isOk, Except.toBool]
      case _ heq3 => exact absurd h (by simp)
  case _ heq => exact absurd h (by simp)

/-! ## Lemmas about the classifier's counting -/

theorem errPart_eq_some {r : Except CheckError Nat} {e : CheckError} :
    errPart r = some e ↔ r = .error e := by
  cases r <;> simp [errPart]

theorem isOk_of_eq_ok {r : Except CheckError Nat} {ms : Nat}
    (h : r = .ok ms) : r.isOk = true := by
  subst h; rfl

theorem countP_lt_length {α : Type} {l : List α} {p : α → Bool} {x : α}
    (hx : x ∈ l) (hpx : p x = false) : l.countP p < l.length := by
  refine Nat.lt_of_le_of_ne (List.countP_le_length p) (fun heq => ?_)
  have := List.countP_eq_length.mp heq x hx
  simp [hpx] at this

theorem countP_filterMap_err_le (rs : List (Except CheckError Nat))
    (p : CheckError → Bool) :
    (rs.filterMap errPart).countP p ≤ rs.length := by
  induction rs with
  | nil => simp
  | cons r rs ih =>
    cases r with
    | ok v =>
      simp only [List.filterMap_cons, errPart, List.length_cons]
      omega
    | error e =>
      simp only [List.filterMap_cons, errPart, List.countP_cons, List.length_cons]
      split <;> omega

theorem timeouts_lt {rs : List (Except CheckError Nat)}
    {r0 : Except CheckError Nat} (hr0 : r0 ∈ rs)
    (hne : r0 ≠ .error CheckError.Timeout) :
    (rs.filterMap errPart).countP (fun e => decide (e = CheckError.Timeout))
      < rs.length := by
  induction rs with
  | nil => cases hr0
  | cons r rs ih =>
    rcases List.mem_cons.mp hr0 with rfl | hmem
    · cases r0 with
      | ok v =>
        simp only [List.filterMap_cons, errPart, List.length_cons]
        exact Nat.lt_succ_of_le (countP_filterMap_err_le rs _)
      | error e =>
        have he : e ≠ CheckError.Timeout := fun h => hne (by rw [h])
        simp only [List.filterMap_cons, errPart, List.length_cons,
          List.countP_cons]
        have hdec : (decide (e = CheckError.Timeout)) = false := by simp [he]
        rw [hdec]
        have := countP_filterMap_err_le rs
          (fun e => decide (e = CheckError.Timeout))
        simp only [Bool.false_eq_true, if_false]
        omega
    · cases r with
      | ok v =>
        simp only [List.filterMap_cons, errPart, List.length_cons]
        exact Nat.lt_succ_of_lt (ih hmem)
      | error e =>
        simp only [List.filterMap_cons, errPart, List.countP_cons, List.length_cons]
        have := ih hmem
        split <;> omega

theorem timeouts_eq {rs : List (Except CheckError Nat)}
    (h : ∀ r ∈ rs, r = .error CheckError.Timeout) :
    (rs.filterMap errPart).countP (fun e => decide (e = CheckError.Timeout))
      = rs.length := by
  induction rs with
  | nil => simp
  | cons r rs ih =>
    have hr := h r (List.mem_cons_self r rs)
    subst hr
    have ih' := ih (fun a ha => h a (List.mem_cons_of_mem _ ha))
    simp [List.filterMap_cons, errPart, List.countP_cons, ih']

theorem op_errors_eq_zero {rs : List (Except CheckError Nat)}
    (h : ∀ r ∈ rs, r ≠ .error CheckError.OperationalError) :
    (rs.filterMap errPart).countP
      (fun e => decide (e = CheckError.OperationalError)) = 0 := by
  rw [List.countP_eq_zero]
  intro e he
  obtain ⟨a, ha, hae⟩ := List.mem_filterMap.mp he
  have : a = .error e := errPart_eq_some.mp hae
  subst this
  simpa using h _ ha

theorem op_errors_pos {rs : List (Except CheckError Nat)}
    {r0 : Except CheckError Nat} (hr0 : r0 ∈ rs)
    (he : r0 = .error CheckError.OperationalError) :
    0 < (rs.filterMap errPart).countP
      (fun e => decide (e = CheckError.OperationalError)) := by
  rw [List.countP_pos_iff]
  exact ⟨CheckError.OperationalError,
    List.mem_filterMap.mpr ⟨r0, hr0, errPart_eq_some.mpr he⟩, by simp⟩

/-! ## Lemmas for the full-success RTT computation -/

theorem okPart_filterMap_map_ok (l : List Nat) :
    (l.map (Except.ok (ε := CheckError))).filterMap okPart = l := by
  induction l with
  | nil => rfl
  | cons x xs ih => simp [okPart, ih]

theorem countP_isOk_map_ok (l : List Nat) :
    (l.map (Except.ok (ε := CheckError))).countP (fun r => r.isOk)
      = l.length := by
  rw [show l.length = (l.map (Except.ok (ε := CheckError))).length by simp]
  rw [List.countP_eq_length]
  intro r hr
  obtain ⟨x, _, rfl⟩ := List.mem_map.mp hr
  rfl

theorem foldl_wrap_eq_sum (l : List Nat) :
    ∀ a : Nat, (∀ x ∈ l, x < 4294967296) → a + l.sum < 4294967296 →
      l.foldl (fun a ms => (a + ms % 4294967296) % 4294967296) a = a + l.sum := by
  induction l with
  | nil => intro a _ _; simp
  | cons x xs ih =>
    intro a hx hsum
    have hxlt : x < 4294967296 := hx x (List.mem_cons_self x xs)
    simp only [List.sum_cons] at hsum
    simp only [List.foldl_cons, Nat.mod_eq_of_lt hxlt,
      Nat.mod_eq_of_lt (show a + x < 4294967296 by omega)]
    rw [ih (a + x) (fun y hy => hx y (List.mem_cons_of_mem _ hy)) (by omega)]
    simp [List.sum_cons]
    omega

/-! # Claim theorems -/

/-- C1: For every candidate whose per-address probes have all finished, the
overall verdict follows the strict priority order of the classifier: if every
resolved address succeeded the result is a profile (`ok`); otherwise, if at
least one address failed with an operational error the result is
`OperationalError`; otherwise, if some but not all addresses timed out the
result is `PartialTimeout`; otherwise (every address timed out) the result is
`Timeout`. -/
theorem C1_classifier_strict_priority (rs : List (Except CheckError Nat))
    (hne : rs ≠ []) :
    ((∀ r ∈ rs, ∃ ms, r = .ok ms) → ∃ rtt, classify rs = .ok rtt)
    ∧ ((∃ r ∈ rs, r = .error CheckError.OperationalError) →
        classify rs = .error CheckError.OperationalError)
    ∧ ((∀ r ∈ rs, r ≠ .error CheckError.OperationalError) →
        (∃ r ∈ rs, r = .error CheckError.Timeout) →
        (∃ r ∈ rs, r ≠ .error CheckError.Timeout) →
        classify rs = .error CheckError.PartialTimeout)
    ∧ ((∀ r ∈ rs, r = .error CheckError.Timeout) →
        classify rs = .error CheckError.Timeout) := by
  refine ⟨?_, ?_, ?_, ?_⟩
  · intro hall
    have hcount : rs.countP (fun r => r.isOk) = rs.length :=
      List.countP_eq_length.mpr (fun r hr => by
        obtain ⟨ms, rfl⟩ := hall r hr; rfl)
    refine ⟨((rs.filterMap okPart).foldl
      (fun a ms => (a + ms % 4294967296) % 4294967296) 0)
      / (rs.length % 4294967296), ?_⟩
    simp only [classify]
    rw [if_pos hcount]
  · rintro ⟨r0, hr0, hOp⟩
    have hlt : rs.countP (fun r => r.isOk) < rs.length :=
      countP_lt_length hr0 (by subst hOp; rfl)
    have hpos := op_errors_pos hr0 hOp
    simp only [classify]
    rw [if_neg (Nat.ne_of_lt hlt), if_pos hpos]
  · rintro hnop ⟨rt, hrt, hto⟩ ⟨r1, hr1, hne1⟩
    have hlt : rs.countP (fun r => r.isOk) < rs.length :=
      countP_lt_length hrt (by subst hto; rfl)
    have hz := op_errors_eq_zero hnop
    have htlt := timeouts_lt hr1 hne1
    simp only [classify]
    rw [if_neg (Nat.ne_of_lt hlt), if_neg (by simp [hz]), if_pos htlt]
  · intro hall
    have hmem : ∃ r, r ∈ rs := by
      cases rs with
      | nil => exact absurd rfl hne
      | cons a l => exact ⟨a, List.mem_cons_self a l⟩
    obtain ⟨r0, hr0⟩ := hmem
    have hlt : rs.countP (fun r => r.isOk) < rs.length :=
      countP_lt_length hr0 (by rw [hall r0 hr0]; rfl)
    have hz := op_errors_eq_zero (fun r hr => by rw [hall r hr]; simp)
    have hte := timeouts_eq hall
    simp only [classify]
    rw [if_neg (Nat.ne_of_lt hlt), if_neg (by simp [hz]),
      if_neg (by rw [hte]; exact Nat.lt_irrefl _)]

/-- C1 witness: with per-address outcomes {operational error, timeout} the
verdict is `OperationalError`. -/
theorem C1_classifier_strict_priority_witness :
    classify [Except.error CheckError.OperationalError,
      Except.error CheckError.Timeout]
      = .error CheckError.OperationalError :=
  (C1_classifier_strict_priority _ (by decide)).2.1
    ⟨Except.error CheckError.OperationalError, by simp, rfl⟩

/-- C5 counterexample: with per-address latencies 10 ms and 31 ms the code's
profile RTT is 20 ms, but the arithmetic mean of the latencies is 20.5 ms:
`rtt_ms` is not the arithmetic mean. -/
theorem C5_rtt_not_arithmetic_mean :
    classify [Except.ok 10, Except.ok 31] = .ok 20
    ∧ ((20 : ℚ) ≠ (10 + 31) / 2) := by
  refine ⟨by decide, by norm_num⟩

/-- C5 (amended): for a fully successful candidate, `rtt_ms` is the *integer*
(floor) quotient of the sum of the per-address millisecond latencies by the
address count (exactly the arithmetic mean only when the sum divides evenly);
for latencies [10, 30] this yields 20 ms. -/
theorem C5_rtt_floor_mean (l : List Nat)
    (hlen : l.length < 4294967296)
    (hx : ∀ x ∈ l, x < 4294967296)
    (hsum : l.sum < 4294967296) :
    classify (l.map Except.ok) = .ok (l.sum / l.length) := by
  have hcount := countP_isOk_map_ok l
  simp only [classify]
  rw [if_pos (by simp [hcount])]
  rw [okPart_filterMap_map_ok, List.length_map, Nat.mod_eq_of_lt hlen,
    foldl_wrap_eq_sum l 0 hx (by simpa using hsum)]
  simp

/-- C5 witness: latencies [10, 30] give profile RTT 20 ms. -/
theorem C5_rtt_floor_mean_witness :
    classify [Except.ok 10, Except.ok 30] = .ok 20 := by
  have := C5_rtt_floor_mean [10, 30] (by decide) (by decide) (by decide)
  simpa using this

/-- C2: In every session state in which connect has not yet succeeded (the
connection id equals the zero sentinel), `announce` returns the
connect-first application error immediately and hands no datagram to the
socket, whatever the environment would have answered. -/
theorem C2_announce_unconnected (st : UdpTrackerClient) (env : ExchangeEnv)
    (h : st.conn_id = 0) :
    (UdpTrackerClient.announce st env).result
      = .error (.ApplicationError "You have to run connect first!")
    ∧ (UdpTrackerClient.announce st env).sentDatagrams = [] := by
  unfold UdpTrackerClient.announce
  rw [if_pos h]
  exact ⟨rfl, rfl⟩

/-- C2 witness: a fresh client (connection id 0) refuses an announce and
sends nothing. -/
theorem C2_announce_unconnected_witness :
    (UdpTrackerClient.announce UdpTrackerClient.new
        ⟨[1, 2, 3], .sent 1024, .timedOut⟩).result
      = .error (.ApplicationError "You have to run connect first!")
    ∧ (UdpTrackerClient.announce UdpTrackerClient.new
        ⟨[1, 2, 3], .sent 1024, .timedOut⟩).sentDatagrams = [] :=
  C2_announce_unconnected UdpTrackerClient.new ⟨[1, 2, 3], .sent 1024, .timedOut⟩ rfl

/-- C3: every failing outcome of `connect` — a reply parsed as something other
than a CONNECT response, a parse failure, or an elapsed timeout — returns an
error and leaves the stored connection id (the whole session state)
unchanged. -/
theorem C3_connect_failure_keeps_state (st : UdpTrackerClient)
    (env : ExchangeEnv)
    (h : env.recv = .timedOut
      ∨ (∃ size, env.recv = .datagram size .Incomplete)
      ∨ (∃ size, env.recv = .datagram size .ParseError)
      ∨ (∃ size r, env.recv = .datagram size (.Done r)
            ∧ ∀ cid, r ≠ .Connect cid)) :
    (∃ e, (UdpTrackerClient.connect st env).result = .error e)
    ∧ (UdpTrackerClient.connect st env).state = st := by
  obtain ⟨frame, send, recv⟩ := env
  cases send with
  | ioErr k => exact ⟨⟨_, rfl⟩, rfl⟩
  | sent n =>
    by_cases hn : (1024 : Nat) ≠ n
    · have hc : UdpTrackerClient.connect st ⟨frame, .sent n, recv⟩
          = ⟨.error (.GeneralError "Failed to send the entire CONNECT request"),
              st, [sendBuffer frame]⟩ := by
        unfold UdpTrackerClient.connect
        simp [hn]
      exact ⟨⟨_, by rw [hc]⟩, by rw [hc]⟩
    · have hn' : (1024 : Nat) = n := not_ne_iff.mp hn
      subst hn'
      simp only at h
      have hread : ∀ size : Nat, ¬ (min size 1024 > 1024) := fun size =>
        Nat.not_lt.mpr (Nat.min_le_right size 1024)
      rcases h with h | ⟨size, h⟩ | ⟨size, h⟩ | ⟨size, r, h, hr⟩ <;> subst h
      · exact ⟨⟨_, rfl⟩, rfl⟩
      · refine ⟨⟨.ApplicationError "Incomplete CONNECT response", ?_⟩, ?_⟩ <;>
          simp [UdpTrackerClient.connect, hread size]
      · refine ⟨⟨.ApplicationError "Unknown CONNECT response error", ?_⟩, ?_⟩ <;>
          simp [UdpTrackerClient.connect, hread size]
      · cases r with
        | Connect cid => exact absurd rfl (hr cid)
        | Announce i le se pe =>
          refine ⟨⟨.ApplicationError
            "Expected CONNECT response, got ANNOUNCE response", ?_⟩, ?_⟩ <;>
            simp [UdpTrackerClient.connect, hread size]
        | Scrape =>
          refine ⟨⟨.ApplicationError
            "Expected CONNECT response, got SCRAPE response", ?_⟩, ?_⟩ <;>
            simp [UdpTrackerClient.connect, hread size]
        | ErrorResp =>
          refine ⟨⟨.ApplicationError
            "Expected CONNECT response, got ERROR response", ?_⟩, ?_⟩ <;>
            simp [UdpTrackerClient.connect, hread size]

/-- C3 witness: a timed-out connect on a fresh client errors and keeps the
state. -/
theorem C3_connect_failure_keeps_state_witness :
    (∃ e, (UdpTrackerClient.connect ⟨0⟩
        ⟨[1, 2, 3], .sent 1024, .timedOut⟩).result = .error e)
    ∧ (UdpTrackerClient.connect ⟨0⟩
        ⟨[1, 2, 3], .sent 1024, .timedOut⟩).state = ⟨0⟩ :=
  C3_connect_failure_keeps_state ⟨0⟩ ⟨[1, 2, 3], .sent 1024, .timedOut⟩
    (Or.inl rfl)

/-- C6: the claim holds for `announce` (its guard is `read >= 1024`, so a
1025-byte datagram, received truncated to 1024 bytes, is a `GeneralError`
before any decoding), but fails for `connect`: its guard is the strict
`read > 1024`, which `min size 1024` can never satisfy, so a 1025-byte
CONNECT reply is silently truncated, decoded, and here accepted — the
operation returns `ok`, not a hard error. -/
theorem C6_oversized_response_guards :
    (UdpTrackerClient.announce ⟨7⟩
        ⟨List.replicate 98 0, .sent 1024,
          .datagram 1025 (.Done (.Announce 1800 0 1 []))⟩).result
      = .error (.GeneralError
          "Failed to read the entire ANNOUNCE response. Buffer too small?")
    ∧ (UdpTrackerClient.connect ⟨0⟩
        ⟨List.replicate 16 0, .sent 1024,
          .datagram 1025 (.Done (.Connect 42))⟩).result = .ok ()
    ∧ (UdpTrackerClient.connect ⟨0⟩
        ⟨List.replicate 16 0, .sent 1024,
          .datagram 1025 (.Done (.Connect 42))⟩).state = ⟨42⟩ := by
  exact ⟨rfl, rfl, rfl⟩

/-- C9: a well-formed CONNECT response carrying connection id 0 makes
`connect` return success while storing the sentinel 0; `announce` then raises
the connect-first application error (sending nothing) exactly when the stored
connection id is 0, regardless of `connect`'s earlier success. -/
theorem C9_zero_conn_id_sentinel :
    (∀ (st : UdpTrackerClient) (frame : List Nat) (size : Nat),
      (UdpTrackerClient.connect st
          ⟨frame, .sent 1024, .datagram size (.Done (.Connect 0))⟩).result
        = .ok ()
      ∧ (UdpTrackerClient.connect st
          ⟨frame, .sent 1024, .datagram size (.Done (.Connect 0))⟩).state.conn_id
        = 0)
    ∧ (∀ (st : UdpTrackerClient) (env : ExchangeEnv), st.conn_id = 0 →
        (UdpTrackerClient.announce st env).result
          = .error (.ApplicationError "You have to run connect first!")
        ∧ (UdpTrackerClient.announce st env).sentDatagrams = [])
    ∧ (∀ (st : UdpTrackerClient) (env : ExchangeEnv), st.conn_id ≠ 0 →
        (UdpTrackerClient.announce st env).result
          ≠ .error (.ApplicationError "You have to run connect first!")) := by
  refine ⟨?_, ?_, ?_⟩
  · intro st frame size
    have hread : ¬ (min size 1024 > 1024) :=
      Nat.not_lt.mpr (Nat.min_le_right size 1024)
    constructor <;> simp [UdpTrackerClient.connect, hread]
  · intro st env h
    unfold UdpTrackerClient.announce
    rw [if_pos h]
    exact ⟨rfl, rfl⟩
  · intro st env hne
    unfold UdpTrackerClient.announce
    rw [if_neg hne]
    obtain ⟨frame, send, recv⟩ := env
    cases send with
    | ioErr k => simp [UdpTrackerClientError.fromIo]
    | sent n =>
      by_cases hn : (1024 : Nat) ≠ n
      · simp [hn]
      · have hn' : (1024 : Nat) = n := not_ne_iff.mp hn
        subst hn'
        simp only [ne_eq, not_true_eq_false, if_false]
        cases recv with
        | timedOut => simp [UdpTrackerClientError.fromElapsed]
        | ioErr k => simp [UdpTrackerClientError.fromIo]
        | datagram size parsed =>
          simp only
          by_cases hr : min size 1024 ≥ 1024
          · simp [hr]
          · rw [if_neg hr]
            cases parsed with
            | Incomplete => simp
            | ParseError => simp
            | Done rt => cases rt <;> simp

/-- C9 witness: connecting against a CONNECT reply carrying id 0 succeeds,
yet the follow-up announce fails with the connect-first error, and a
connected client (nonzero id) never sees that error on a timeout. -/
theorem C9_zero_conn_id_sentinel_witness :
    ((UdpTrackerClient.connect ⟨0⟩
        ⟨[1], .sent 1024, .datagram 16 (.Done (.Connect 0))⟩).result = .ok ()
      ∧ (UdpTrackerClient.connect ⟨0⟩
          ⟨[1], .sent 1024, .datagram 16 (.Done (.Connect 0))⟩).state.conn_id = 0)
    ∧ ((UdpTrackerClient.announce ⟨0⟩ ⟨[1], .sent 1024, .timedOut⟩).result
        = .error (.ApplicationError "You have to run connect first!")
      ∧ (UdpTrackerClient.announce ⟨0⟩
          ⟨[1], .sent 1024, .timedOut⟩).sentDatagrams = [])
    ∧ (UdpTrackerClient.announce ⟨5⟩ ⟨[1], .sent 1024, .timedOut⟩).result
        ≠ .error (.ApplicationError "You have to run connect first!") :=
  ⟨C9_zero_conn_id_sentinel.1 ⟨0⟩ [1] 16,
    C9_zero_conn_id_sentinel.2.1 ⟨0⟩ ⟨[1], .sent 1024, .timedOut⟩ rfl,
    C9_zero_conn_id_sentinel.2.2 ⟨5⟩ ⟨[1], .sent 1024, .timedOut⟩ (by decide)⟩

/-- C10: whenever `connect` or `announce` reaches the socket, the datagram
handed over is the whole 1024-byte buffer — the serialized frame followed by
zero padding — and the send is accepted only when the socket reports exactly
1024 bytes; any other reported count is a `GeneralError`. -/
theorem C10_full_buffer_send (st : UdpTrackerClient) (env : ExchangeEnv)
    (hframe : env.frame.length ≤ 1024) :
    (sendBuffer env.frame
        = env.frame ++ List.replicate (1024 - env.frame.length) 0
      ∧ (sendBuffer env.frame).length = 1024)
    ∧ (UdpTrackerClient.connect st env).sentDatagrams = [sendBuffer env.frame]
    ∧ (st.conn_id ≠ 0 →
        (UdpTrackerClient.announce st env).sentDatagrams = [sendBuffer env.frame])
    ∧ (∀ n, env.send = .sent n → n ≠ 1024 →
        (UdpTrackerClient.connect st env).result
          = .error (.GeneralError "Failed to send the entire CONNECT request")
        ∧ (st.conn_id ≠ 0 →
            (UdpTrackerClient.announce st env).result
              = .error (.GeneralError "Failed to send the entire ANNOUNCE request"))) := by
  obtain ⟨frame, send, recv⟩ := env
  simp only at hframe ⊢
  refine ⟨⟨rfl, by simp [sendBuffer]; omega⟩, ?_, ?_, ?_⟩
  · cases send with
    | ioErr k => rfl
    | sent n =>
      by_cases hn : (1024 : Nat) ≠ n
      · simp [UdpTrackerClient.connect, hn]
      · have hn' : (1024 : Nat) = n := not_ne_iff.mp hn
        subst hn'
        cases recv with
        | timedOut => rfl
        | ioErr k => rfl
        | datagram size parsed =>
          have hread : ¬ (min size 1024 > 1024) :=
            Nat.not_lt.mpr (Nat.min_le_right size 1024)
          cases parsed with
          | Incomplete => simp [UdpTrackerClient.connect, hread]
          | ParseError => simp [UdpTrackerClient.connect, hread]
          | Done rt => cases rt <;> simp [UdpTrackerClient.connect, hread]
  · intro hcid
    unfold UdpTrackerClient.announce
    rw [if_neg hcid]
    cases send with
    | ioErr k => rfl
    | sent n =>
      by_cases hn : (1024 : Nat) ≠ n
      · simp [hn]
      · have hn' : (1024 : Nat) = n := not_ne_iff.mp hn
        subst hn'
        simp only [ne_eq, not_true_eq_false, if_false]
        cases recv with
        | timedOut => rfl
        | ioErr k => rfl
        | datagram size parsed =>
          simp only
          by_cases hr : min size 1024 ≥ 1024
          · simp [hr]
          · rw [if_neg hr]
            cases parsed with
            | Incomplete => rfl
            | ParseError => rfl
            | Done rt => cases rt <;> rfl
  · intro n hsend hne
    cases hsend
    have hif : (1024 : Nat) ≠ n := fun he => hne he.symm
    constructor
    · simp [UdpTrackerClient.connect, hif]
    · intro hcid
      unfold UdpTrackerClient.announce
      rw [if_neg hcid]
      simp [hif]

/-- C10 witness: a one-byte frame is padded to the full 1024-byte buffer, and
a short send of 100 bytes is rejected as a general error. -/
theorem C10_full_buffer_send_witness :
    (sendBuffer [9]).length = 1024
    ∧ (UdpTrackerClient.connect ⟨3⟩ ⟨[9], .sent 100, .timedOut⟩).result
        = .error (.GeneralError "Failed to send the entire CONNECT request") := by
  have h := C10_full_buffer_send ⟨3⟩ ⟨[9], .sent 100, .timedOut⟩ (by decide)
  exact ⟨h.1.2, (h.2.2.2 100 rfl (by decide)).1⟩

/-- C8: the conversion of per-address failures into the classifier's taxonomy
sends application errors, general errors and non-timeout I/O errors to
`OperationalError`, and exactly the I/O errors of kind `TimedOut` (including
converted `tokio` timeouts) to `Timeout`. -/
theorem C8_error_taxonomy (m1 m2 : String) (k : IoErrorKind)
    (hk : k ≠ .TimedOut) :
    CheckError.fromClient (.ApplicationError m1) = .OperationalError
    ∧ CheckError.fromClient (.GeneralError m2) = .OperationalError
    ∧ CheckError.fromClient (.IoError k) = .OperationalError
    ∧ (∀ e, CheckError.fromClient e = .Timeout ↔ e = .IoError .TimedOut)
    ∧ CheckError.fromClient UdpTrackerClientError.fromElapsed = .Timeout := by
  refine ⟨rfl, rfl, ?_, ?_, rfl⟩
  · cases k with
    | TimedOut => exact absurd rfl hk
    | ConnectionRefused => rfl
    | NotFound => rfl
    | Other => rfl
  · intro e
    cases e with
    | GeneralError m => simp [CheckError.fromClient]
    | ApplicationError m => simp [CheckError.fromClient]
    | IoError k' =>
      cases k' <;> simp [CheckError.fromClient, CheckError.fromIo]

/-- C8 witness: a non-timeout I/O error maps to `OperationalError` while a
timeout I/O error maps to `Timeout`. -/
theorem C8_error_taxonomy_witness :
    CheckError.fromClient (.IoError .ConnectionRefused) = .OperationalError
    ∧ CheckError.fromClient (.IoError .TimedOut) = .Timeout :=
  ⟨(C8_error_taxonomy "a" "b" .ConnectionRefused (by decide)).2.2.1,
    ((C8_error_taxonomy "a" "b" .ConnectionRefused (by decide)).2.2.2.1
      (.IoError .TimedOut)).mpr rfl⟩

/-- C4 counterexample: the round trip fails for a candidate whose host
contains a `':'` — serializing `udp://a:b:80` and parsing it back is an
error, not the original candidate. -/
theorem C4_roundtrip_counterexample :
    TrackerCandidate.from_string
        (TrackerCandidate.to_string ⟨['a', ':', 'b'], 80, .UDP, none⟩)
      ≠ .ok ⟨['a', ':', 'b'], 80, .UDP, none⟩ := by
  decide

/-- C4 (amended): the round trip `from_string (to_string C) = Ok C` holds for
every candidate whose port is a `u16`, whose host contains no `':'`, and whose
suffix is absent or starts with `'/'` and contains no `':'` — but not for
arbitrary host strings and suffixes. -/
theorem C4_roundtrip (c : TrackerCandidate)
    (hhost : ':' ∉ c.host) (hport : c.port < 65536)
    (hsuf : c.suffix = none ∨
      ∃ r, c.suffix = some ('/' :: r) ∧ ':' ∉ ('/' :: r)) :
    TrackerCandidate.from_string c.to_string = .ok c :=
  from_string_to_string_aux c hhost hport hsuf

/-- C4 witness: the round trip at `udp://tracker.example:6969/announce`. -/
theorem C4_roundtrip_witness :
    TrackerCandidate.from_string
        (TrackerCandidate.to_string
          ⟨"tracker.example".toList, 6969, .UDP, some "/announce".toList⟩)
      = .ok ⟨"tracker.example".toList, 6969, .UDP, some "/announce".toList⟩ :=
  C4_roundtrip ⟨"tracker.example".toList, 6969, .UDP, some "/announce".toList⟩
    (by decide) (by decide) (Or.inr ⟨"announce".toList, rfl, by decide⟩)

/-- C7: on every input exhibiting one of the malformations — wrong number of
`':'`-separated fields, missing `"//"` after the transport, non-numeric port,
or unknown transport — `from_string` returns an error value (and, being a
total function, never panics). -/
theorem C7_malformed_is_error (s : List Char)
    (h : malformedInput s = true) :
    ∃ msg, TrackerCandidate.from_string s = .error msg := by
  cases hfs : TrackerCandidate.from_string s with
  | ok c =>
    have := from_string_ok_not_malformed hfs
    rw [this] at h
    cases h
  | error e => exact ⟨e, rfl⟩

/-- C7 witness: `"hello"` (one field) is malformed and fails to parse. -/
theorem C7_malformed_is_error_witness :
    ∃ msg, TrackerCandidate.from_string "hello".toList = .error msg :=
  C7_malformed_is_error "hello".toList (by decide)

end TrackerRepo
